import Mathlib

/-!
Verification development for the sdl_core transport-manager core
(device-adapter listener contract and the orchestrating registries) and
for the rpc_base validated types exercised by
test/components/rpc_base/rpc_base_json_test.cc.
-/

namespace TransportManager

/-- Opaque device identity token (DeviceUID in transport_manager/common.h). -/
abbrev DeviceUID := Nat

/-- Opaque per-device application/session identity token. -/
abbrev ApplicationHandle := Nat

/-- Identity of a device-adapter instance. -/
abbrev AdapterId := Nat

/-- Generation/epoch stamp of one adapter registration. -/
abbrev Generation := Nat

/-- Identity token of a raw message buffer (RawMessageSptr): two tokens are
equal exactly when they denote the same buffer object. -/
abbrev RawMessage := Nat

/-- Typed error payloads from transport_manager/error.h, kept opaque. -/
abbrev SearchDeviceError := Nat

/-- Opaque connect-failure reason. -/
abbrev ConnectError := Nat

/-- Opaque communication-failure reason. -/
abbrev CommunicationError := Nat

/-- Opaque disconnect-failure reason. -/
abbrev DisconnectError := Nat

/-- Opaque device-disconnect-failure reason. -/
abbrev DisconnectDeviceError := Nat

/-- Opaque data-send-failure reason. -/
abbrev DataSendError := Nat

/-- Opaque data-receive-failure reason. -/
abbrev DataReceiveError := Nat

/-- Modelled from the spec: the event callbacks of the pure interface
DeviceAdapterListener (device_adapter_listener.h declares them as pure
virtuals; the implementing Transport Manager is not among the sources).
Each event carries the reporting adapter's identity and the generation
stamp of the registration it was issued under, which the manager checks
during validation. `onSearchDeviceDone` carries the adapter's current
discovered set, which the manager publishes as the device list. -/
inductive AdapterEvent where
  | onSearchDeviceDone (aid : AdapterId) (g : Generation) (found : List DeviceUID)
  | onSearchDeviceFailed (aid : AdapterId) (g : Generation) (e : SearchDeviceError)
  | onConnectDone (aid : AdapterId) (g : Generation) (d : DeviceUID) (p : ApplicationHandle)
  | onConnectFailed (aid : AdapterId) (g : Generation) (d : DeviceUID) (p : ApplicationHandle) (e : ConnectError)
  | onConnectRequested (aid : AdapterId) (g : Generation) (d : DeviceUID) (p : ApplicationHandle)
  | onUnexpectedDisconnect (aid : AdapterId) (g : Generation) (d : DeviceUID) (p : ApplicationHandle) (e : CommunicationError)
  | onDisconnectDone (aid : AdapterId) (g : Generation) (d : DeviceUID) (p : ApplicationHandle)
  | onDisconnectFailed (aid : AdapterId) (g : Generation) (d : DeviceUID) (p : ApplicationHandle) (e : DisconnectError)
  | onDisconnectDeviceDone (aid : AdapterId) (g : Generation) (d : DeviceUID)
  | onDisconnectDeviceFailed (aid : AdapterId) (g : Generation) (d : DeviceUID) (e : DisconnectDeviceError)
  | onDataSendDone (aid : AdapterId) (g : Generation) (d : DeviceUID) (p : ApplicationHandle) (m : RawMessage)
  | onDataSendFailed (aid : AdapterId) (g : Generation) (d : DeviceUID) (p : ApplicationHandle) (m : RawMessage) (e : DataSendError)
  | onDataReceiveDone (aid : AdapterId) (g : Generation) (d : DeviceUID) (p : ApplicationHandle) (m : RawMessage)
  | onDataReceiveFailed (aid : AdapterId) (g : Generation) (d : DeviceUID) (p : ApplicationHandle) (e : DataReceiveError)
  | onCommunicationError (aid : AdapterId) (g : Generation) (d : DeviceUID) (p : ApplicationHandle)
deriving DecidableEq, Repr

/-- The (adapter identity, generation stamp) pair an event reports under. -/
def AdapterEvent.stamp : AdapterEvent → AdapterId × Generation
  | .onSearchDeviceDone aid g _ => (aid, g)
  | .onSearchDeviceFailed aid g _ => (aid, g)
  | .onConnectDone aid g _ _ => (aid, g)
  | .onConnectFailed aid g _ _ _ => (aid, g)
  | .onConnectRequested aid g _ _ => (aid, g)
  | .onUnexpectedDisconnect aid g _ _ _ => (aid, g)
  | .onDisconnectDone aid g _ _ => (aid, g)
  | .onDisconnectFailed aid g _ _ _ => (aid, g)
  | .onDisconnectDeviceDone aid g _ => (aid, g)
  | .onDisconnectDeviceFailed aid g _ _ => (aid, g)
  | .onDataSendDone aid g _ _ _ => (aid, g)
  | .onDataSendFailed aid g _ _ _ _ => (aid, g)
  | .onDataReceiveDone aid g _ _ _ => (aid, g)
  | .onDataReceiveFailed aid g _ _ _ => (aid, g)
  | .onCommunicationError aid g _ _ => (aid, g)

/-- Modelled from the spec: the manager-level events the Transport Manager
publishes upstream, one per accepted adapter event, mirroring it 1:1.
`connectionLost` (unexpected loss) is a distinct constructor from
`connectionClosed` (planned disconnect done). -/
inductive TMEvent where
  | searchDone (aid : AdapterId) (found : List DeviceUID)
  | searchFail (aid : AdapterId) (e : SearchDeviceError)
  | connectDone (d : DeviceUID) (p : ApplicationHandle)
  | connectFail (d : DeviceUID) (p : ApplicationHandle) (e : ConnectError)
  | connectRequested (d : DeviceUID) (p : ApplicationHandle)
  | connectionLost (d : DeviceUID) (p : ApplicationHandle) (e : CommunicationError)
  | connectionClosed (d : DeviceUID) (p : ApplicationHandle)
  | disconnectFail (d : DeviceUID) (p : ApplicationHandle) (e : DisconnectError)
  | deviceDisconnected (d : DeviceUID)
  | deviceDisconnectFail (d : DeviceUID) (e : DisconnectDeviceError)
  | sendDone (d : DeviceUID) (p : ApplicationHandle) (m : RawMessage)
  | sendFail (d : DeviceUID) (p : ApplicationHandle) (m : RawMessage) (e : DataSendError)
  | receiveDone (d : DeviceUID) (p : ApplicationHandle) (m : RawMessage)
  | receiveFail (d : DeviceUID) (p : ApplicationHandle) (e : DataReceiveError)
  | communicationFault (d : DeviceUID) (p : ApplicationHandle)
deriving DecidableEq, Repr

/-- Whether a published manager-level event is one of the *Failed variants. -/
def TMEvent.isFailedVariant : TMEvent → Bool
  | .searchFail _ _ => true
  | .connectFail _ _ _ => true
  | .disconnectFail _ _ _ => true
  | .deviceDisconnectFail _ _ => true
  | .sendFail _ _ _ _ => true
  | .receiveFail _ _ _ => true
  | _ => false

/-- Modelled from the spec: the Transport Manager's owned state — the
registered-adapter set (with generation stamps), the device registry and
the connection registry. The connection registry holds the
(DeviceUID, ApplicationHandle) keys of the connections that exist; a
registered connection is in state Connected. -/
structure TMState where
  adapters : List (AdapterId × Generation)
  devices : List (DeviceUID × AdapterId)
  connections : List (DeviceUID × ApplicationHandle)
deriving DecidableEq, Repr

/-- Validation step of the Transport Manager: look the reporting adapter up
by identity and generation stamp in the registered-adapter set. -/
def registered (s : TMState) (aid : AdapterId) (g : Generation) : Bool :=
  s.adapters.contains (aid, g)

/-- Remove the connection with key (d, p) from a connection registry. -/
def removeConn (cs : List (DeviceUID × ApplicationHandle)) (d : DeviceUID)
    (p : ApplicationHandle) : List (DeviceUID × ApplicationHandle) :=
  cs.filter fun c => !(c.1 == d && c.2 == p)

/-- Whether a Connection with key (d, p) exists in the connection registry. -/
def hasConn (s : TMState) (d : DeviceUID) (p : ApplicationHandle) : Bool :=
  s.connections.any fun c => c.1 == d && c.2 == p

/-- Modelled from the spec: the Transport Manager's handling of one listener
event (the implementation behind DeviceAdapterListener is not among the
sources). It performs the spec's Validate / Apply / Publish sequence:
if the reporting adapter is not registered under the carried generation
stamp, the event is dropped with no registry mutation, no published event
and no error; otherwise the registry transition of the event policy table
is applied as one step and one mirrored manager-level event is published. -/
def processEvent (s : TMState) (ev : AdapterEvent) : TMState × List TMEvent :=
  match ev with
  | .onSearchDeviceDone aid g found =>
    if registered s aid g then
      ({ s with devices :=
          found.map (fun d => (d, aid)) ++ s.devices.filter (fun x => !(x.2 == aid)) },
        [TMEvent.searchDone aid found])
    else (s, [])
  | .onSearchDeviceFailed aid g e =>
    if registered s aid g then (s, [TMEvent.searchFail aid e]) else (s, [])
  | .onConnectDone aid g d p =>
    if registered s aid g then
      ({ s with connections := (d, p) :: removeConn s.connections d p },
        [TMEvent.connectDone d p])
    else (s, [])
  | .onConnectFailed aid g d p e =>
    if registered s aid g then (s, [TMEvent.connectFail d p e]) else (s, [])
  | .onConnectRequested aid g d p =>
    if registered s aid g then (s, [TMEvent.connectRequested d p]) else (s, [])
  | .onUnexpectedDisconnect aid g d p e =>
    if registered s aid g then
      ({ s with connections := removeConn s.connections d p },
        [TMEvent.connectionLost d p e])
    else (s, [])
  | .onDisconnectDone aid g d p =>
    if registered s aid g then
      ({ s with connections := removeConn s.connections d p },
        [TMEvent.connectionClosed d p])
    else (s, [])
  | .onDisconnectFailed aid g d p e =>
    if registered s aid g then (s, [TMEvent.disconnectFail d p e]) else (s, [])
  | .onDisconnectDeviceDone aid g d =>
    if registered s aid g then
      ({ s with
          connections := s.connections.filter (fun c => !(c.1 == d)),
          devices := s.devices.filter (fun x => !(x.1 == d)) },
        [TMEvent.deviceDisconnected d])
    else (s, [])
  | .onDisconnectDeviceFailed aid g d e =>
    if registered s aid g then (s, [TMEvent.deviceDisconnectFail d e]) else (s, [])
  | .onDataSendDone aid g d p m =>
    if registered s aid g then (s, [TMEvent.sendDone d p m]) else (s, [])
  | .onDataSendFailed aid g d p m e =>
    if registered s aid g then (s, [TMEvent.sendFail d p m e]) else (s, [])
  | .onDataReceiveDone aid g d p m =>
    if registered s aid g then (s, [TMEvent.receiveDone d p m]) else (s, [])
  | .onDataReceiveFailed aid g d p e =>
    if registered s aid g then (s, [TMEvent.receiveFail d p e]) else (s, [])
  | .onCommunicationError aid g d p =>
    if registered s aid g then (s, [TMEvent.communicationFault d p]) else (s, [])

/-- Run the Transport Manager over a sequence of adapter events, keeping
the resulting registry state. -/
def runTM (s : TMState) (es : List AdapterEvent) : TMState :=
  es.foldl (fun st e => (processEvent st e).1) s

/-- Whether an event is one of the connection-lifecycle events that decide
existence of the connection with key (d, p): its creation event
`onConnectDone`, its removal events `onDisconnectDone` and
`onUnexpectedDisconnect`, and the device-level teardown of its device. -/
def AdapterEvent.isLifecycleFor (d : DeviceUID) (p : ApplicationHandle) :
    AdapterEvent → Bool
  | .onConnectDone _ _ d' p' => d' == d && p' == p
  | .onDisconnectDone _ _ d' p' => d' == d && p' == p
  | .onUnexpectedDisconnect _ _ d' p' _ => d' == d && p' == p
  | .onDisconnectDeviceDone _ _ d' => d' == d
  | _ => false

/-- Whether an event reports a terminal outcome addressed to the key (d, p):
a connect, disconnect or unexpected-disconnect outcome for that key. -/
def AdapterEvent.isTerminalFor (d : DeviceUID) (p : ApplicationHandle) :
    AdapterEvent → Bool
  | .onConnectDone _ _ d' p' => d' == d && p' == p
  | .onConnectFailed _ _ d' p' _ => d' == d && p' == p
  | .onDisconnectDone _ _ d' p' => d' == d && p' == p
  | .onDisconnectFailed _ _ d' p' _ => d' == d && p' == p
  | .onUnexpectedDisconnect _ _ d' p' _ => d' == d && p' == p
  | _ => false

/-- Whether an event is the device-level teardown of device d. -/
def AdapterEvent.isTeardownFor (d : DeviceUID) : AdapterEvent → Bool
  | .onDisconnectDeviceDone _ _ d' => d' == d
  | _ => false

/-- Whether an event is `onConnectDone` addressed to the key (d, p). -/
def AdapterEvent.isConnectDoneFor (d : DeviceUID) (p : ApplicationHandle) :
    AdapterEvent → Bool
  | .onConnectDone _ _ d' p' => d' == d && p' == p
  | _ => false

/-- Spec-side existence predicate, as the claim literally reads: the most
recent terminal event for the key (d, p) was `onConnectDone`, and no
device-level teardown of the key's device occurred after it. -/
def specLiteralConnExists (es : List AdapterEvent) (d : DeviceUID)
    (p : ApplicationHandle) : Bool :=
  match (es.filter fun e => e.isTerminalFor d p || e.isTeardownFor d).getLast? with
  | some e => e.isConnectDoneFor d p
  | none => false

/-- Spec-side existence predicate restricted to connection-lifecycle events:
the most recent lifecycle event for key (d, p) — creation, key-level
removal, or device teardown — was `onConnectDone`. -/
def specConnExists (es : List AdapterEvent) (d : DeviceUID)
    (p : ApplicationHandle) : Bool :=
  match (es.filter (AdapterEvent.isLifecycleFor d p)).getLast? with
  | some e => e.isConnectDoneFor d p
  | none => false

/-- Modelled from the spec: the per-(device, app) lifecycle states of the
device adapter's internal state machine (the adapter implementations are
not among the sources): Unknown, Discovered, Connecting, Connected,
Disconnecting, Disconnected; Disconnected is the retired state after the
key's last event. -/
inductive ConnectionState where
  | unknownSt
  | discovered
  | connecting
  | connected
  | disconnecting
  | disconnected
deriving DecidableEq, Repr

/-- The listener callbacks an adapter can issue for one fixed
(device, app) key. -/
inductive KeyCallback where
  | connectDone
  | connectFailed
  | dataSendDone
  | dataSendFailed
  | dataReceiveDone
  | dataReceiveFailed
  | disconnectDone
  | disconnectFailed
  | unexpectedDisconnect
deriving DecidableEq, Repr

/-- Whether a callback is a connect outcome for the key. -/
def KeyCallback.isConnectOutcome : KeyCallback → Bool
  | .connectDone => true
  | .connectFailed => true
  | _ => false

/-- Whether a callback is a data or disconnect callback for the key. -/
def KeyCallback.isDataOrDisconnect : KeyCallback → Bool
  | .dataSendDone => true
  | .dataSendFailed => true
  | .dataReceiveDone => true
  | .dataReceiveFailed => true
  | .disconnectDone => true
  | .disconnectFailed => true
  | .unexpectedDisconnect => true
  | _ => false

/-- Whether a callback retires the key: per the listener contract a
disconnect-done, disconnect-failed or unexpected-disconnect event is the
last event ever emitted for its key. -/
def KeyCallback.isFinalCallback : KeyCallback → Bool
  | .disconnectDone => true
  | .disconnectFailed => true
  | .unexpectedDisconnect => true
  | _ => false

/-- Modelled from the spec: one transition of the adapter's per-key state
machine. `none` labels a silent transition driven by a fire-and-forget
request (discovery publication, connect request, disconnect request);
`some c` labels the emission of callback c. Connect outcomes resolve the
Connecting state (a failed connect restores the pre-request state), data
callbacks occur while Connected, planned disconnect outcomes resolve
Disconnecting, and unexpected loss moves Connected directly to
Disconnected; all key-retiring callbacks end in Disconnected, from which
no transition exists. -/
inductive KeyStep : ConnectionState → Option KeyCallback → ConnectionState → Prop where
  | discover : KeyStep .unknownSt none .discovered
  | connectReq : KeyStep .discovered none .connecting
  | connectOk : KeyStep .connecting (some .connectDone) .connected
  | connectFail : KeyStep .connecting (some .connectFailed) .discovered
  | sendOk : KeyStep .connected (some .dataSendDone) .connected
  | sendFail : KeyStep .connected (some .dataSendFailed) .connected
  | recvOk : KeyStep .connected (some .dataReceiveDone) .connected
  | recvFail : KeyStep .connected (some .dataReceiveFailed) .connected
  | disconnectReq : KeyStep .connected none .disconnecting
  | disconnectOk : KeyStep .disconnecting (some .disconnectDone) .disconnected
  | disconnectFail : KeyStep .disconnecting (some .disconnectFailed) .disconnected
  | unexpectedLoss : KeyStep .connected (some .unexpectedDisconnect) .disconnected

/-- The adapter, started on a fresh key in state Unknown, can reach state s
having emitted exactly the callback sequence tr for that key. -/
inductive Emits : ConnectionState → List KeyCallback → Prop where
  | start : Emits .unknownSt []
  | silentStep {s s' : ConnectionState} {tr : List KeyCallback} :
      Emits s tr → KeyStep s none s' → Emits s' tr
  | callbackStep {s s' : ConnectionState} {tr : List KeyCallback} {c : KeyCallback} :
      Emits s tr → KeyStep s (some c) s' → Emits s' (tr ++ [c])

/-- Modelled from the spec: the per-adapter send pipeline behind
`sendData(device, app, buffer)` (the adapter implementations are not among
the sources). Submitted buffers are held pending, immutable while in
flight, and each completed send invokes `onDataSendDone` echoing the very
buffer identity that was submitted. -/
structure DeviceAdapterState where
  aid : AdapterId
  gen : Generation
  pendingSends : List (DeviceUID × ApplicationHandle × RawMessage)
deriving DecidableEq, Repr

/-- Submit a buffer for sending: it joins the pending-send pipeline. -/
def sendData (st : DeviceAdapterState) (d : DeviceUID) (p : ApplicationHandle)
    (m : RawMessage) : DeviceAdapterState :=
  { st with pendingSends := st.pendingSends ++ [(d, p, m)] }

/-- The onDataSendDone callbacks the adapter issues as the pending sends
complete, in submission order, each echoing its submitted buffer. -/
def sendDoneEvents (st : DeviceAdapterState) : List AdapterEvent :=
  st.pendingSends.map fun x => AdapterEvent.onDataSendDone st.aid st.gen x.1 x.2.1 x.2.2

end TransportManager

namespace rpc

/-- Character strings of the embedding; named before the rpc::String model
shadows the ambient String type. -/
abbrev JsonString := String

/-- Modelled from the spec: the subset of jsoncpp's Json::Value the
rpc_base validated types consume (rpc_base.h / rpc_base_json_inl.h are
not among the sources; behavior follows
test/components/rpc_base/rpc_base_json_test.cc). Integral JSON numbers
and real JSON numbers are distinct kinds, as in jsoncpp; reals are
modelled as rationals. -/
inductive JsonValue where
  | booleanValue (b : Bool)
  | intValue (n : Int)
  | realValue (q : Rat)
  | stringValue (s : String)
  | nullValue
deriving DecidableEq, Repr

/-- Kind test mirroring Json::Value::isBool. -/
def JsonValue.isBool : JsonValue → Bool
  | .booleanValue _ => true
  | _ => false

/-- Kind test mirroring Json::Value::isInt: true for an integral value that
fits the signed 32-bit range, as in jsoncpp. -/
def JsonValue.isInt : JsonValue → Bool
  | .intValue n => decide (-(2 ^ 31) ≤ n ∧ n < 2 ^ 31)
  | _ => false

/-- Kind test for a real (floating) JSON number. -/
def JsonValue.isDouble : JsonValue → Bool
  | .realValue _ => true
  | _ => false

/-- Kind test mirroring Json::Value::isString. -/
def JsonValue.isString : JsonValue → Bool
  | .stringValue _ => true
  | _ => false

/-- Numeric payload of an integral JSON value (Json::Value::asInt). -/
def JsonValue.asInt : JsonValue → Int
  | .intValue n => n
  | _ => 0

/-- Numeric payload of a real JSON value (Json::Value::asDouble). -/
def JsonValue.asDouble : JsonValue → Rat
  | .realValue q => q
  | _ => 0

/-- Textual payload of a string JSON value (Json::Value::asString). -/
def JsonValue.asString : JsonValue → String
  | .stringValue s => s
  | _ => ""

/-- Modelled from the spec: rpc::Boolean constructed from a JSON value.
Construction from JSON always initializes the object; validity records
whether the JSON value had boolean kind. -/
structure Boolean where
  value : Bool
  isInitialized : Bool
  isValid : Bool
deriving DecidableEq, Repr

/-- Construct rpc::Boolean from a JSON value. -/
def Boolean.fromJson (v : JsonValue) : Boolean :=
  match v with
  | .booleanValue b => { value := b, isInitialized := true, isValid := true }
  | _ => { value := false, isInitialized := true, isValid := false }

/-- Serialize rpc::Boolean back to JSON (ToJsonValue). -/
def Boolean.toJsonValue (x : Boolean) : JsonValue :=
  .booleanValue x.value

/-- Modelled from the spec: rpc::Integer of some underlying integer type
with declared bounds, constructed from a JSON value. -/
structure Integer where
  value : Int
  isInitialized : Bool
  isValid : Bool
deriving DecidableEq, Repr

/-- Construct rpc::Integer with declared range [lo, hi] from a JSON value:
valid iff the value has integral kind within jsoncpp's isInt range and
lies within the declared bounds. -/
def Integer.fromJson (lo hi : Int) (v : JsonValue) : Integer :=
  match v with
  | .intValue n =>
    { value := n, isInitialized := true,
      isValid := v.isInt && decide (lo ≤ n) && decide (n ≤ hi) }
  | _ => { value := 0, isInitialized := true, isValid := false }

/-- Serialize rpc::Integer back to JSON (ToJsonValue). -/
def Integer.toJsonValue (x : Integer) : JsonValue :=
  .intValue x.value

/-- Modelled from the spec: rpc::Float with declared bounds, constructed
from a JSON value; reals are modelled as rationals. -/
structure Float where
  value : Rat
  isInitialized : Bool
  isValid : Bool
deriving DecidableEq, Repr

/-- Construct rpc::Float with declared range [lo, hi] from a JSON value. -/
def Float.fromJson (lo hi : Rat) (v : JsonValue) : Float :=
  match v with
  | .realValue q =>
    { value := q, isInitialized := true,
      isValid := decide (lo ≤ q) && decide (q ≤ hi) }
  | _ => { value := 0, isInitialized := true, isValid := false }

/-- Serialize rpc::Float back to JSON (ToJsonValue). -/
def Float.toJsonValue (x : Float) : JsonValue :=
  .realValue x.value

/-- Modelled from the spec: rpc::String with a declared maximum length,
constructed from a JSON value. -/
structure String where
  value : JsonString
  isInitialized : Bool
  isValid : Bool
deriving DecidableEq, Repr

/-- Construct rpc::String with maximum length maxlen from a JSON value. -/
def String.fromJson (maxlen : Nat) (v : JsonValue) : String :=
  match v with
  | .stringValue s =>
    { value := s, isInitialized := true, isValid := decide (s.length ≤ maxlen) }
  | _ => { value := "", isInitialized := true, isValid := false }

/-- Serialize rpc::String back to JSON (ToJsonValue). -/
def String.toJsonValue (x : String) : JsonValue :=
  .stringValue x.value

/-- The test enumeration of rpc_base_json_test.cc. -/
inductive TestEnum where
  | kValue0
  | kValue1
  | kInvalidValue
deriving DecidableEq, Repr

/-- IsValidEnum of rpc_base_json_test.cc. -/
def IsValidEnum (val : TestEnum) : Bool :=
  val == .kValue0 || val == .kValue1

/-- EnumFromJsonString of rpc_base_json_test.cc; the C++ out-parameter plus
bool result is rendered as an Option. -/
def EnumFromJsonString (value : JsonString) : Option TestEnum :=
  if value == "kValue0" then some .kValue0
  else if value == "kValue1" then some .kValue1
  else none

/-- EnumToJsonString of rpc_base_json_test.cc. -/
def EnumToJsonString : TestEnum → JsonString
  | .kValue0 => "kValue0"
  | .kValue1 => "kValue1"
  | _ => "UNKNOWN"

/-- Modelled from the spec: rpc::Enum over TestEnum constructed from a
JSON value via EnumFromJsonString. -/
structure Enum where
  value : TestEnum
  isInitialized : Bool
  isValid : Bool
deriving DecidableEq, Repr

/-- Construct rpc::Enum from a JSON value. -/
def Enum.fromJson (v : JsonValue) : Enum :=
  match v with
  | .stringValue s =>
    match EnumFromJsonString s with
    | some e => { value := e, isInitialized := true, isValid := true }
    | none => { value := .kInvalidValue, isInitialized := true, isValid := false }
  | _ => { value := .kInvalidValue, isInitialized := true, isValid := false }

/-- Serialize rpc::Enum back to JSON via EnumToJsonString (ToJsonValue). -/
def Enum.toJsonValue (x : Enum) : JsonValue :=
  .stringValue (EnumToJsonString x.value)

end rpc

namespace TransportManager

/-- Filtering a list keeps `any` unchanged when the filter keeps every
element the `any` predicate accepts. -/
lemma any_filter_keep {α : Type} (l : List α) (f g : α → Bool)
    (h : ∀ a, g a = true → f a = true) : (l.filter f).any g = l.any g := by
  induction l with
  | nil => rfl
  | cons a l ih =>
    rw [List.filter_cons]
    cases hf : f a with
    | true => simp [List.any_cons, ih]
    | false =>
      have hg : g a = false := by
        cases hga : g a with
        | false => rfl
        | true => rw [h a hga] at hf; exact absurd hf (by simp)
      simp [List.any_cons, hg, ih]

/-- Filtering a list makes `any` false when the filter drops every element
the `any` predicate accepts. -/
lemma any_filter_drop {α : Type} (l : List α) (f g : α → Bool)
    (h : ∀ a, g a = true → f a = false) : (l.filter f).any g = false := by
  induction l with
  | nil => rfl
  | cons a l ih =>
    rw [List.filter_cons]
    cases hf : f a with
    | true =>
      have hg : g a = false := by
        cases hga : g a with
        | false => rfl
        | true => rw [h a hga] at hf; exact absurd hf (by simp)
      simp [List.any_cons, hg, ih]
    | false => simpa using ih

/-- Effect of removing the key (d', p') on the existence test for (d, p). -/
lemma any_key_filter (cs : List (DeviceUID × ApplicationHandle)) (d p d' p' : Nat) :
    ((cs.filter fun c => !(c.1 == d' && c.2 == p')).any fun c => c.1 == d && c.2 == p)
      = (!(d == d' && p == p') && (cs.any fun c => c.1 == d && c.2 == p)) := by
  by_cases hk : d = d' ∧ p = p'
  · obtain ⟨rfl, rfl⟩ := hk
    rw [any_filter_drop]
    · simp
    · intro a ha
      simp only [Bool.and_eq_true, beq_iff_eq] at ha
      simp [ha.1, ha.2]
  · rw [any_filter_keep]
    · have hb : (d == d' && p == p') = false := by
        rcases Decidable.not_and_iff_or_not.mp hk with h | h <;> simp [h]
      simp [hb]
    · intro a ha
      simp only [Bool.and_eq_true, beq_iff_eq] at ha
      have hb : (d == d' && p == p') = false := by
        rcases Decidable.not_and_iff_or_not.mp hk with h | h <;> simp [h]
      simp [ha.1, ha.2, hb]

/-- Effect of removing every connection of device d' on the existence test
for (d, p). -/
lemma any_dev_filter (cs : List (DeviceUID × ApplicationHandle)) (d p d' : Nat) :
    ((cs.filter fun c => !(c.1 == d')).any fun c => c.1 == d && c.2 == p)
      = (!(d == d') && (cs.any fun c => c.1 == d && c.2 == p)) := by
  by_cases hk : d = d'
  · subst hk
    rw [any_filter_drop]
    · simp
    · intro a ha
      simp only [Bool.and_eq_true, beq_iff_eq] at ha
      simp [ha.1]
  · rw [any_filter_keep]
    · simp [hk]
    · intro a ha
      simp only [Bool.and_eq_true, beq_iff_eq] at ha
      simp [ha.1, hk]

/-- One accepted event changes existence of the connection (d, p) exactly
according to the connection-lifecycle classification of the event. -/
lemma hasConn_processEvent (s : TMState) (e : AdapterEvent)
    (he : s.adapters.contains e.stamp = true) (d : DeviceUID) (p : ApplicationHandle) :
    hasConn (processEvent s e).1 d p
      = if e.isLifecycleFor d p then e.isConnectDoneFor d p else hasConn s d p := by
  cases e with
  | onSearchDeviceDone aid g found =>
    simp only [AdapterEvent.stamp] at he
    have hm : ((aid, g) : AdapterId × Generation) ∈ s.adapters := by simpa using he
    simp [processEvent, registered, he, hm, hasConn, AdapterEvent.isLifecycleFor]
  | onSearchDeviceFailed aid g err =>
    simp only [AdapterEvent.stamp] at he
    have hm : ((aid, g) : AdapterId × Generation) ∈ s.adapters := by simpa using he
    simp [processEvent, registered, he, hm, hasConn, AdapterEvent.isLifecycleFor]
  | onConnectDone aid g d' p' =>
    simp only [AdapterEvent.stamp] at he
    simp only [processEvent, registered, he, if_true, hasConn,
      AdapterEvent.isLifecycleFor, AdapterEvent.isConnectDoneFor, removeConn,
      List.any_cons]
    rw [any_key_filter]
    by_cases hd : d' = d
    · subst hd
      by_cases hp : p' = p
      · subst hp; simp
      · have hb1 : (p' == p) = false := beq_eq_false_iff_ne.mpr hp
        have hb2 : (p == p') = false := beq_eq_false_iff_ne.mpr fun h => hp h.symm
        simp [hb1, hb2]
    · have hb1 : (d' == d) = false := beq_eq_false_iff_ne.mpr hd
      have hb2 : (d == d') = false := beq_eq_false_iff_ne.mpr fun h => hd h.symm
      simp [hb1, hb2]
  | onConnectFailed aid g d' p' err =>
    simp only [AdapterEvent.stamp] at he
    have hm : ((aid, g) : AdapterId × Generation) ∈ s.adapters := by simpa using he
    simp [processEvent, registered, he, hm, hasConn, AdapterEvent.isLifecycleFor]
  | onConnectRequested aid g d' p' =>
    simp only [AdapterEvent.stamp] at he
    have hm : ((aid, g) : AdapterId × Generation) ∈ s.adapters := by simpa using he
    simp [processEvent, registered, he, hm, hasConn, AdapterEvent.isLifecycleFor]
  | onUnexpectedDisconnect aid g d' p' err =>
    simp only [AdapterEvent.stamp] at he
    simp only [processEvent, registered, he, if_true, hasConn,
      AdapterEvent.isLifecycleFor, AdapterEvent.isConnectDoneFor, removeConn]
    rw [any_key_filter]
    by_cases hd : d' = d
    · subst hd
      by_cases hp : p' = p
      · subst hp; simp
      · have hb1 : (p' == p) = false := beq_eq_false_iff_ne.mpr hp
        have hb2 : (p == p') = false := beq_eq_false_iff_ne.mpr fun h => hp h.symm
        simp [hb1, hb2]
    · have hb1 : (d' == d) = false := beq_eq_false_iff_ne.mpr hd
      have hb2 : (d == d') = false := beq_eq_false_iff_ne.mpr fun h => hd h.symm
      simp [hb1, hb2]
  | onDisconnectDone aid g d' p' =>
    simp only [AdapterEvent.stamp] at he
    simp only [processEvent, registered, he, if_true, hasConn,
      AdapterEvent.isLifecycleFor, AdapterEvent.isConnectDoneFor, removeConn]
    rw [any_key_filter]
    by_cases hd : d' = d
    · subst hd
      by_cases hp : p' = p
      · subst hp; simp
      · have hb1 : (p' == p) = false := beq_eq_false_iff_ne.mpr hp
        have hb2 : (p == p') = false := beq_eq_false_iff_ne.mpr fun h => hp h.symm
        simp [hb1, hb2]
    · have hb1 : (d' == d) = false := beq_eq_false_iff_ne.mpr hd
      have hb2 : (d == d') = false := beq_eq_false_iff_ne.mpr fun h => hd h.symm
      simp [hb1, hb2]
  | onDisconnectFailed aid g d' p' err =>
    simp only [AdapterEvent.stamp] at he
    have hm : ((aid, g) : AdapterId × Generation) ∈ s.adapters := by simpa using he
    simp [processEvent, registered, he, hm, hasConn, AdapterEvent.isLifecycleFor]
  | onDisconnectDeviceDone aid g d' =>
    simp only [AdapterEvent.stamp] at he
    simp only [processEvent, registered, he, if_true, hasConn,
      AdapterEvent.isLifecycleFor, AdapterEvent.isConnectDoneFor]
    rw [any_dev_filter]
    by_cases hd : d' = d
    · subst hd; simp
    · have hb1 : (d' == d) = false := beq_eq_false_iff_ne.mpr hd
      have hb2 : (d == d') = false := beq_eq_false_iff_ne.mpr fun h => hd h.symm
      simp [hb1, hb2]
  | onDisconnectDeviceFailed aid g d' err =>
    simp only [AdapterEvent.stamp] at he
    have hm : ((aid, g) : AdapterId × Generation) ∈ s.adapters := by simpa using he
    simp [processEvent, registered, he, hm, hasConn, AdapterEvent.isLifecycleFor]
  | onDataSendDone aid g d' p' m =>
    simp only [AdapterEvent.stamp] at he
    have hm : ((aid, g) : AdapterId × Generation) ∈ s.adapters := by simpa using he
    simp [processEvent, registered, he, hm, hasConn, AdapterEvent.isLifecycleFor]
  | onDataSendFailed aid g d' p' m err =>
    simp only [AdapterEvent.stamp] at he
    have hm : ((aid, g) : AdapterId × Generation) ∈ s.adapters := by simpa using he
    simp [processEvent, registered, he, hm, hasConn, AdapterEvent.isLifecycleFor]
  | onDataReceiveDone aid g d' p' m =>
    simp only [AdapterEvent.stamp] at he
    have hm : ((aid, g) : AdapterId × Generation) ∈ s.adapters := by simpa using he
    simp [processEvent, registered, he, hm, hasConn, AdapterEvent.isLifecycleFor]
  | onDataReceiveFailed aid g d' p' err =>
    simp only [AdapterEvent.stamp] at he
    have hm : ((aid, g) : AdapterId × Generation) ∈ s.adapters := by simpa using he
    simp [processEvent, registered, he, hm, hasConn, AdapterEvent.isLifecycleFor]
  | onCommunicationError aid g d' p' =>
    simp only [AdapterEvent.stamp] at he
    have hm : ((aid, g) : AdapterId × Generation) ∈ s.adapters := by simpa using he
    simp [processEvent, registered, he, hm, hasConn, AdapterEvent.isLifecycleFor]

/-- Processing one event never changes the registered-adapter set. -/
lemma adapters_processEvent (s : TMState) (e : AdapterEvent) :
    (processEvent s e).1.adapters = s.adapters := by
  cases e <;> simp only [processEvent] <;> split <;> rfl

/-- Running a sequence of events never changes the registered-adapter set. -/
lemma adapters_runTM (s : TMState) (es : List AdapterEvent) :
    (runTM s es).adapters = s.adapters := by
  induction es generalizing s with
  | nil => rfl
  | cons e es ih => rw [runTM, List.foldl_cons, ← runTM, ih, adapters_processEvent]

/-- Appending one event to a run applies one more processing step. -/
lemma runTM_append_singleton (s : TMState) (es : List AdapterEvent) (e : AdapterEvent) :
    runTM s (es ++ [e]) = (processEvent (runTM s es) e).1 := by
  simp [runTM, List.foldl_append]

/-- Appending one event updates the lifecycle-based spec predicate pointwise. -/
lemma specConnExists_append (es : List AdapterEvent) (e : AdapterEvent)
    (d : DeviceUID) (p : ApplicationHandle) :
    specConnExists (es ++ [e]) d p
      = if e.isLifecycleFor d p then e.isConnectDoneFor d p
        else specConnExists es d p := by
  unfold specConnExists
  rw [List.filter_append]
  cases hl : e.isLifecycleFor d p with
  | true => simp [List.filter, hl]
  | false => simp [List.filter, hl]

/-- C1 (amended): over every sequence of adapter events that all pass the
Transport Manager's adapter validation, a Connection with key (d, p)
exists in the connection registry after the run iff the most recent
connection-lifecycle event for the key — its creation event
`onConnectDone`, its removal events `onDisconnectDone` and
`onUnexpectedDisconnect`, or the device-level teardown
`onDisconnectDeviceDone` of its device — was `onConnectDone`. Failed
outcomes (`onConnectFailed`, `onDisconnectFailed`) do not affect
existence, which is exactly where the claim's literal wording fails. -/
theorem connection_registry_characterization
    (A : List (AdapterId × Generation)) (devs0 : List (DeviceUID × AdapterId))
    (es : List AdapterEvent) (d : DeviceUID) (p : ApplicationHandle)
    (hv : ∀ e ∈ es, A.contains e.stamp = true) :
    hasConn (runTM (TMState.mk A devs0 []) es) d p = specConnExists es d p := by
  induction es using List.reverseRecOn with
  | nil => rfl
  | append_singleton es e ih =>
    have hv' : ∀ x ∈ es, A.contains x.stamp = true := fun x hx => hv x (by simp [hx])
    have hereg : (runTM (TMState.mk A devs0 []) es).adapters.contains e.stamp = true := by
      rw [adapters_runTM]
      exact hv e (by simp)
    rw [runTM_append_singleton, hasConn_processEvent _ _ hereg d p,
      specConnExists_append, ih hv']

/-- C1 exactly as stated is false on the model: after the fully validated
sequence [onConnectDone, onDisconnectFailed] for the key (1, 2), the
Connection still exists in the registry — a failed disconnect leaves the
registry unchanged — yet the most recent terminal event for the key is
onDisconnectFailed, not onConnectDone, so the claimed iff fails. -/
theorem connection_registry_literal_counterexample :
    hasConn (runTM (TMState.mk [(0, 0)] [] [])
        [AdapterEvent.onConnectDone 0 0 1 2,
          AdapterEvent.onDisconnectFailed 0 0 1 2 0]) 1 2 = true ∧
      specLiteralConnExists
        [AdapterEvent.onConnectDone 0 0 1 2,
          AdapterEvent.onDisconnectFailed 0 0 1 2 0] 1 2 = false := by
  constructor
  · rfl
  · rfl

/-- Witness for the amended C1 theorem at the concrete one-event run
consisting of a validated onConnectDone for the key (1, 2). -/
theorem connection_registry_characterization_witness :
    hasConn (runTM (TMState.mk [(0, 0)] [] [])
        [AdapterEvent.onConnectDone 0 0 1 2]) 1 2
      = specConnExists [AdapterEvent.onConnectDone 0 0 1 2] 1 2 :=
  connection_registry_characterization [(0, 0)] []
    [AdapterEvent.onConnectDone 0 0 1 2] 1 2 (by decide)

/-- C2: processing onDisconnectDeviceDone for device d removes every
connection of d (and d's device entry) in the single atomic processing
step — event application is one state transition, so no observer of the
resulting states ever sees a proper subset removed — while
onDisconnectDeviceFailed removes nothing, returning the registries
unchanged. -/
theorem device_teardown_atomic (s : TMState) (aid : AdapterId) (g : Generation)
    (d : DeviceUID) (err : DisconnectDeviceError)
    (hreg : registered s aid g = true) :
    processEvent s (AdapterEvent.onDisconnectDeviceDone aid g d)
      = ({ s with
            connections := s.connections.filter (fun c => !(c.1 == d)),
            devices := s.devices.filter (fun x => !(x.1 == d)) },
          [TMEvent.deviceDisconnected d]) ∧
    (∀ c ∈ (processEvent s (AdapterEvent.onDisconnectDeviceDone aid g d)).1.connections,
        c.1 ≠ d) ∧
    processEvent s (AdapterEvent.onDisconnectDeviceFailed aid g d err)
      = (s, [TMEvent.deviceDisconnectFail d err]) := by
  refine ⟨by simp [processEvent, hreg], ?_, by simp [processEvent, hreg]⟩
  intro c hc
  simp only [processEvent, hreg, if_true] at hc
  have hmem := List.mem_filter.mp hc
  simpa using hmem.2

/-- Witness for the device-teardown theorem: device 1 carries the two
connections (1, 2) and (1, 3) plus an unrelated connection (4, 5); the
teardown Done removes exactly the two, the Failed variant removes none. -/
theorem device_teardown_atomic_witness :
    processEvent (TMState.mk [(0, 0)] [(1, 0)] [(1, 2), (1, 3), (4, 5)])
        (AdapterEvent.onDisconnectDeviceDone 0 0 1)
      = (TMState.mk [(0, 0)] [] [(4, 5)], [TMEvent.deviceDisconnected 1]) ∧
    (∀ c ∈ (processEvent (TMState.mk [(0, 0)] [(1, 0)] [(1, 2), (1, 3), (4, 5)])
        (AdapterEvent.onDisconnectDeviceDone 0 0 1)).1.connections, c.1 ≠ 1) ∧
    processEvent (TMState.mk [(0, 0)] [(1, 0)] [(1, 2), (1, 3), (4, 5)])
        (AdapterEvent.onDisconnectDeviceFailed 0 0 1 7)
      = (TMState.mk [(0, 0)] [(1, 0)] [(1, 2), (1, 3), (4, 5)],
          [TMEvent.deviceDisconnectFail 1 7]) :=
  device_teardown_atomic (TMState.mk [(0, 0)] [(1, 0)] [(1, 2), (1, 3), (4, 5)])
    0 0 1 7 (by decide)

/-- C3: an event whose reporting adapter is not found by identity and
generation stamp in the registered-adapter set is dropped: the state is
returned unchanged (no device or connection registry mutation) and no
manager-level event is published; processEvent is total, so no error is
raised. -/
theorem unregistered_event_dropped (s : TMState) (e : AdapterEvent)
    (h : s.adapters.contains e.stamp = false) :
    processEvent s e = (s, []) := by
  cases e <;> simp_all [processEvent, registered, AdapterEvent.stamp]

/-- Witness for the dropped-event theorem: adapter 1 reports under a stale
stamp while only (0, 0) is registered; the event changes nothing. -/
theorem unregistered_event_dropped_witness :
    processEvent (TMState.mk [(0, 0)] [] [])
        (AdapterEvent.onConnectDone 1 0 5 6)
      = (TMState.mk [(0, 0)] [] [], []) :=
  unregistered_event_dropped (TMState.mk [(0, 0)] [] [])
    (AdapterEvent.onConnectDone 1 0 5 6) (by decide)

/-- C4: onConnectFailed performs no registry mutation — the state after
processing equals the state before, whether or not the adapter is
registered — and repeating the event any number of times still leaves the
state unchanged. -/
theorem connect_failed_never_creates (s : TMState) (aid : AdapterId)
    (g : Generation) (d : DeviceUID) (p : ApplicationHandle) (err : ConnectError)
    (n : Nat) :
    (processEvent s (AdapterEvent.onConnectFailed aid g d p err)).1 = s ∧
    runTM s (List.replicate n (AdapterEvent.onConnectFailed aid g d p err)) = s := by
  have h1 : ∀ t : TMState,
      (processEvent t (AdapterEvent.onConnectFailed aid g d p err)).1 = t := by
    intro t
    cases hr : registered t aid g <;> simp [processEvent, hr]
  refine ⟨h1 s, ?_⟩
  induction n with
  | zero => rfl
  | succ n ih =>
    rw [List.replicate_succ, runTM, List.foldl_cons, h1 s, ← runTM]
    exact ih

/-- C5: processing onUnexpectedDisconnect for a Connected key removes that
Connection and publishes exactly one connectionLost event — an event that
is distinct from the planned-disconnect connectionClosed event and is not
a *Failed variant. -/
theorem unexpected_disconnect_reports_lost (s : TMState) (aid : AdapterId)
    (g : Generation) (d : DeviceUID) (p : ApplicationHandle)
    (err : CommunicationError) (hreg : registered s aid g = true)
    (hconn : hasConn s d p = true) :
    processEvent s (AdapterEvent.onUnexpectedDisconnect aid g d p err)
      = ({ s with connections := removeConn s.connections d p },
          [TMEvent.connectionLost d p err]) ∧
    hasConn (processEvent s (AdapterEvent.onUnexpectedDisconnect aid g d p err)).1 d p
      = false ∧
    TMEvent.connectionLost d p err ≠ TMEvent.connectionClosed d p ∧
    TMEvent.isFailedVariant (TMEvent.connectionLost d p err) = false := by
  refine ⟨by simp [processEvent, hreg], ?_, by simp, rfl⟩
  simp only [processEvent, hreg, if_true, hasConn, removeConn]
  rw [any_key_filter]
  simp

/-- Witness for the unexpected-disconnect theorem: the Connected key (1, 2)
is removed and a connectionLost event is published. -/
theorem unexpected_disconnect_reports_lost_witness :
    processEvent (TMState.mk [(0, 0)] [] [(1, 2)])
        (AdapterEvent.onUnexpectedDisconnect 0 0 1 2 9)
      = (TMState.mk [(0, 0)] [] [], [TMEvent.connectionLost 1 2 9]) ∧
    hasConn (processEvent (TMState.mk [(0, 0)] [] [(1, 2)])
        (AdapterEvent.onUnexpectedDisconnect 0 0 1 2 9)).1 1 2 = false ∧
    TMEvent.connectionLost 1 2 9 ≠ TMEvent.connectionClosed 1 2 ∧
    TMEvent.isFailedVariant (TMEvent.connectionLost 1 2 9) = false :=
  unexpected_disconnect_reports_lost (TMState.mk [(0, 0)] [] [(1, 2)])
    0 0 1 2 9 (by decide) (by decide)

/-- C7: each of the four data-transfer events returns the registry state
completely unchanged — the device and connection registries after
processing are the ones before — and publishes exactly one mirrored
event carrying the buffer identity and, for the Failed variants, the
typed error. -/
theorem data_events_preserve_registries (s : TMState) (aid : AdapterId)
    (g : Generation) (d : DeviceUID) (p : ApplicationHandle) (m : RawMessage)
    (e1 : DataSendError) (e2 : DataReceiveError)
    (hreg : registered s aid g = true) :
    processEvent s (AdapterEvent.onDataSendDone aid g d p m)
      = (s, [TMEvent.sendDone d p m]) ∧
    processEvent s (AdapterEvent.onDataSendFailed aid g d p m e1)
      = (s, [TMEvent.sendFail d p m e1]) ∧
    processEvent s (AdapterEvent.onDataReceiveDone aid g d p m)
      = (s, [TMEvent.receiveDone d p m]) ∧
    processEvent s (AdapterEvent.onDataReceiveFailed aid g d p e2)
      = (s, [TMEvent.receiveFail d p e2]) := by
  refine ⟨?_, ?_, ?_, ?_⟩ <;> simp [processEvent, hreg]

/-- Witness for the data-event frame theorem at a concrete populated state. -/
theorem data_events_preserve_registries_witness :
    processEvent (TMState.mk [(0, 0)] [(1, 0)] [(1, 2)])
        (AdapterEvent.onDataSendDone 0 0 1 2 42)
      = (TMState.mk [(0, 0)] [(1, 0)] [(1, 2)], [TMEvent.sendDone 1 2 42]) ∧
    processEvent (TMState.mk [(0, 0)] [(1, 0)] [(1, 2)])
        (AdapterEvent.onDataSendFailed 0 0 1 2 42 3)
      = (TMState.mk [(0, 0)] [(1, 0)] [(1, 2)], [TMEvent.sendFail 1 2 42 3]) ∧
    processEvent (TMState.mk [(0, 0)] [(1, 0)] [(1, 2)])
        (AdapterEvent.onDataReceiveDone 0 0 1 2 42)
      = (TMState.mk [(0, 0)] [(1, 0)] [(1, 2)], [TMEvent.receiveDone 1 2 42]) ∧
    processEvent (TMState.mk [(0, 0)] [(1, 0)] [(1, 2)])
        (AdapterEvent.onDataReceiveFailed 0 0 1 2 4)
      = (TMState.mk [(0, 0)] [(1, 0)] [(1, 2)], [TMEvent.receiveFail 1 2 4]) :=
  data_events_preserve_registries (TMState.mk [(0, 0)] [(1, 0)] [(1, 2)])
    0 0 1 2 42 3 4 (by decide)

/-- C8: the onDataSendDone callback matching a sendData submission echoes
exactly the submitted buffer identity: submitting buffer m appends to the
pipeline a completion callback carrying m itself, and the Transport
Manager republishes that same identity upstream unaltered. Buffers are
modelled by identity tokens, so token equality is object identity. -/
theorem send_buffer_identity (st : DeviceAdapterState) (d : DeviceUID)
    (p : ApplicationHandle) (m : RawMessage) (s : TMState)
    (hreg : registered s st.aid st.gen = true) :
    sendDoneEvents (sendData st d p m)
      = sendDoneEvents st ++ [AdapterEvent.onDataSendDone st.aid st.gen d p m] ∧
    (processEvent s (AdapterEvent.onDataSendDone st.aid st.gen d p m)).2
      = [TMEvent.sendDone d p m] := by
  constructor
  · simp [sendDoneEvents, sendData]
  · simp [processEvent, hreg]

/-- Splitting a list that ends in a known element: the distinguished
element of the split is either that last element or lies inside the
prefix list. -/
lemma split_concat {α : Type} {tr : List α} {c0 : α} {pre : List α} {c : α}
    {post : List α} (h : tr ++ [c0] = pre ++ c :: post) :
    (pre = tr ∧ c = c0 ∧ post = []) ∨
      (∃ post', post = post' ++ [c0] ∧ tr = pre ++ c :: post') := by
  rcases List.eq_nil_or_concat post with hp | ⟨L, b, hp⟩
  · subst hp
    have h2 := List.append_inj' h (by simp)
    refine Or.inl ⟨h2.1.symm, ?_, rfl⟩
    have := h2.2
    simpa using this.symm
  · subst hp
    have h' : tr ++ [c0] = (pre ++ c :: L) ++ [b] := by simpa using h
    have h2 := List.append_inj' h' (by simp)
    have hb : c0 = b := by simpa using h2.2
    exact Or.inr ⟨L, by simp [hb], h2.1⟩

/-- Invariant of the adapter's per-key machine, by induction on the
reachability derivation: (1) every emitted data or disconnect callback is
preceded by a connect outcome and every key-retiring callback sits at the
very end of the emitted trace; (2) before the key reaches the retired
Disconnected state no retiring callback has been emitted; (3) in the
Connected and Disconnecting states a connect outcome is on record. -/
lemma emits_invariant {s : ConnectionState} {tr : List KeyCallback}
    (h : Emits s tr) :
    (∀ pre c post, tr = pre ++ c :: post →
      (c.isDataOrDisconnect = true → ∃ c' ∈ pre, c'.isConnectOutcome = true) ∧
      (c.isFinalCallback = true → post = [])) ∧
    (s ≠ .disconnected → ∀ c ∈ tr, c.isFinalCallback = false) ∧
    ((s = .connected ∨ s = .disconnecting) → ∃ c ∈ tr, c.isConnectOutcome = true) := by
  induction h with
  | start =>
    refine ⟨?_, ?_, ?_⟩
    · intro pre c post hsplit
      exact absurd hsplit (by simp)
    · intro _ c hc
      simp at hc
    · rintro (h | h) <;> exact absurd h (by simp)
  | silentStep hEmits hstep ih =>
    obtain ⟨ih1, ih2, ih3⟩ := ih
    cases hstep with
    | discover =>
      exact ⟨ih1, fun _ => ih2 (by simp), fun h => by rcases h with h | h <;> simp at h⟩
    | connectReq =>
      exact ⟨ih1, fun _ => ih2 (by simp), fun h => by rcases h with h | h <;> simp at h⟩
    | disconnectReq =>
      exact ⟨ih1, fun _ => ih2 (by simp), fun _ => ih3 (Or.inl rfl)⟩
  | callbackStep hEmits hstep ih =>
    obtain ⟨ih1, ih2, ih3⟩ := ih
    rename_i s s' tr c0
    have hsrc : s ≠ ConnectionState.disconnected := by
      cases hstep <;> simp
    have hnofinal : ∀ c ∈ tr, c.isFinalCallback = false := ih2 hsrc
    have hclause1 : ∀ pre c post, tr ++ [c0] = pre ++ c :: post →
        (c.isDataOrDisconnect = true → ∃ c' ∈ pre, c'.isConnectOutcome = true) ∧
        (c.isFinalCallback = true → post = []) := by
      intro pre c post hsplit
      rcases split_concat hsplit with ⟨hpre, hc, hpost⟩ | ⟨post', hpost, htr⟩
      · subst hpre; subst hc; subst hpost
        refine ⟨?_, fun _ => rfl⟩
        intro hdata
        cases hstep with
        | connectOk => simp [KeyCallback.isDataOrDisconnect] at hdata
        | connectFail => simp [KeyCallback.isDataOrDisconnect] at hdata
        | sendOk => exact ih3 (Or.inl rfl)
        | sendFail => exact ih3 (Or.inl rfl)
        | recvOk => exact ih3 (Or.inl rfl)
        | recvFail => exact ih3 (Or.inl rfl)
        | disconnectOk => exact ih3 (Or.inr rfl)
        | disconnectFail => exact ih3 (Or.inr rfl)
        | unexpectedLoss => exact ih3 (Or.inl rfl)
      · refine ⟨fun hdata => (ih1 pre c post' htr).1 hdata, ?_⟩
        intro hfin
        have hcmem : c ∈ tr := by
          rw [htr]
          exact List.mem_append_right pre (List.mem_cons_self c post')
        rw [hnofinal c hcmem] at hfin
        exact absurd hfin (by simp)
    refine ⟨hclause1, ?_, ?_⟩
    · intro hs' c hc
      rcases List.mem_append.mp hc with hmem | hmem
      · exact hnofinal c hmem
      · have hc0 : c = c0 := by simpa using hmem
        subst hc0
        cases hstep with
        | connectOk => rfl
        | connectFail => rfl
        | sendOk => rfl
        | sendFail => rfl
        | recvOk => rfl
        | recvFail => rfl
        | disconnectOk => exact absurd rfl hs'
        | disconnectFail => exact absurd rfl hs'
        | unexpectedLoss => exact absurd rfl hs'
    · intro hs'
      cases hstep with
      | connectOk =>
        exact ⟨KeyCallback.connectDone, by simp, rfl⟩
      | connectFail =>
        rcases hs' with h | h <;> exact absurd h (by simp)
      | sendOk =>
        obtain ⟨c', hmem, hout⟩ := ih3 (Or.inl rfl)
        exact ⟨c', List.mem_append_left _ hmem, hout⟩
      | sendFail =>
        obtain ⟨c', hmem, hout⟩ := ih3 (Or.inl rfl)
        exact ⟨c', List.mem_append_left _ hmem, hout⟩
      | recvOk =>
        obtain ⟨c', hmem, hout⟩ := ih3 (Or.inl rfl)
        exact ⟨c', List.mem_append_left _ hmem, hout⟩
      | recvFail =>
        obtain ⟨c', hmem, hout⟩ := ih3 (Or.inl rfl)
        exact ⟨c', List.mem_append_left _ hmem, hout⟩
      | disconnectOk =>
        rcases hs' with h | h <;> exact absurd h (by simp)
      | disconnectFail =>
        rcases hs' with h | h <;> exact absurd h (by simp)
      | unexpectedLoss =>
        rcases hs' with h | h <;> exact absurd h (by simp)

/-- C6: in every callback sequence the adapter can emit for a single
(device, app) key, any data or disconnect callback is preceded by a
connect outcome (onConnectDone or onConnectFailed), and any
disconnect-done, disconnect-failed or unexpected-disconnect callback is
the last event emitted for the key — nothing follows it, the key is
retired. -/
theorem callback_order_and_retirement (s : ConnectionState)
    (tr : List KeyCallback) (h : Emits s tr) (pre : List KeyCallback)
    (c : KeyCallback) (post : List KeyCallback) (hsplit : tr = pre ++ c :: post) :
    (c.isDataOrDisconnect = true → ∃ c' ∈ pre, c'.isConnectOutcome = true) ∧
    (c.isFinalCallback = true → post = []) :=
  (emits_invariant h).1 pre c post hsplit

/-- A concrete reachable callback trace for one key: connect, one data
transfer, then a planned disconnect. -/
lemma emits_example :
    Emits ConnectionState.disconnected
      [KeyCallback.connectDone, KeyCallback.dataSendDone, KeyCallback.disconnectDone] := by
  have h0 : Emits ConnectionState.unknownSt [] := Emits.start
  have h1 := Emits.silentStep h0 KeyStep.discover
  have h2 := Emits.silentStep h1 KeyStep.connectReq
  have h3 := Emits.callbackStep h2 KeyStep.connectOk
  have h4 := Emits.callbackStep h3 KeyStep.sendOk
  have h5 := Emits.silentStep h4 KeyStep.disconnectReq
  have h6 := Emits.callbackStep h5 KeyStep.disconnectOk
  simpa using h6

/-- Witness for the callback-ordering theorem at the concrete trace
[connectDone, dataSendDone, disconnectDone], split at its final
disconnectDone. -/
theorem callback_order_and_retirement_witness :
    (KeyCallback.disconnectDone.isDataOrDisconnect = true →
      ∃ c' ∈ [KeyCallback.connectDone, KeyCallback.dataSendDone],
        c'.isConnectOutcome = true) ∧
    (KeyCallback.disconnectDone.isFinalCallback = true →
      ([] : List KeyCallback) = []) :=
  callback_order_and_retirement ConnectionState.disconnected
    [KeyCallback.connectDone, KeyCallback.dataSendDone, KeyCallback.disconnectDone]
    emits_example [KeyCallback.connectDone, KeyCallback.dataSendDone]
    KeyCallback.disconnectDone [] rfl

/-- Witness for the buffer-identity theorem: buffer 42 submitted after a
pending buffer 7 is echoed as buffer 42 and republished as buffer 42. -/
theorem send_buffer_identity_witness :
    sendDoneEvents (sendData (DeviceAdapterState.mk 0 0 [(1, 2, 7)]) 1 2 42)
      = sendDoneEvents (DeviceAdapterState.mk 0 0 [(1, 2, 7)])
          ++ [AdapterEvent.onDataSendDone 0 0 1 2 42] ∧
    (processEvent (TMState.mk [(0, 0)] [] [(1, 2)])
        (AdapterEvent.onDataSendDone 0 0 1 2 42)).2
      = [TMEvent.sendDone 1 2 42] :=
  send_buffer_identity (DeviceAdapterState.mk 0 0 [(1, 2, 7)]) 1 2 42
    (TMState.mk [(0, 0)] [] [(1, 2)]) (by decide)

end TransportManager

namespace rpc

/-- C9: construct-then-serialize round-trip identity. For a JSON value of
the validated type's expected kind whose payload lies within the declared
bounds, constructing the validated type and calling ToJsonValue yields
the original JSON value back — hence in particular a value of the same
JSON kind — and the constructed object is valid. -/
theorem validated_types_roundtrip :
    (∀ v : JsonValue, v.isBool = true →
      (Boolean.fromJson v).toJsonValue = v ∧ (Boolean.fromJson v).isValid = true) ∧
    (∀ (lo hi : Int) (v : JsonValue), v.isInt = true →
      lo ≤ v.asInt → v.asInt ≤ hi →
      (Integer.fromJson lo hi v).toJsonValue = v ∧
        (Integer.fromJson lo hi v).isValid = true) ∧
    (∀ (lo hi : Rat) (v : JsonValue), v.isDouble = true →
      lo ≤ v.asDouble → v.asDouble ≤ hi →
      (Float.fromJson lo hi v).toJsonValue = v ∧
        (Float.fromJson lo hi v).isValid = true) ∧
    (∀ (maxlen : Nat) (v : JsonValue), v.isString = true →
      v.asString.length ≤ maxlen →
      (String.fromJson maxlen v).toJsonValue = v ∧
        (String.fromJson maxlen v).isValid = true) ∧
    (∀ v : JsonValue, v.isString = true →
      (EnumFromJsonString v.asString).isSome = true →
      (Enum.fromJson v).toJsonValue = v ∧ (Enum.fromJson v).isValid = true) := by
  refine ⟨?_, ?_, ?_, ?_, ?_⟩
  · intro v hv
    cases v <;>
      simp_all [JsonValue.isBool, Boolean.fromJson, Boolean.toJsonValue]
  · intro lo hi v hv h1 h2
    cases v <;>
      simp_all [JsonValue.isInt, JsonValue.asInt, Integer.fromJson,
        Integer.toJsonValue]
  · intro lo hi v hv h1 h2
    cases v <;>
      simp_all [JsonValue.isDouble, JsonValue.asDouble, Float.fromJson,
        Float.toJsonValue]
  · intro maxlen v hv hlen
    cases v <;>
      simp_all [JsonValue.isString, JsonValue.asString, String.fromJson,
        String.toJsonValue]
  · intro v hv hsome
    cases v with
    | stringValue s =>
      simp only [JsonValue.asString] at hsome
      by_cases h0 : s = "kValue0"
      · subst h0
        simp [Enum.fromJson, EnumFromJsonString, Enum.toJsonValue, EnumToJsonString]
      · by_cases h1 : s = "kValue1"
        · subst h1
          simp [Enum.fromJson, EnumFromJsonString, Enum.toJsonValue, EnumToJsonString]
        · exfalso
          simp [EnumFromJsonString, h0, h1] at hsome
    | booleanValue b => simp [JsonValue.isString] at hv
    | intValue n => simp [JsonValue.isString] at hv
    | realValue q => simp [JsonValue.isString] at hv
    | nullValue => simp [JsonValue.isString] at hv

/-- Witness for the round-trip theorem at the concrete inputs of the test
suite: Boolean from true, Integer in [-5, 192] from 42, Float in [1, 7]
from the real 4, String of maximum length 42 from "Hello", Enum from
"kValue1". -/
theorem validated_types_roundtrip_witness :
    ((Boolean.fromJson (JsonValue.booleanValue true)).toJsonValue
        = JsonValue.booleanValue true ∧
      (Boolean.fromJson (JsonValue.booleanValue true)).isValid = true) ∧
    ((Integer.fromJson (-5) 192 (JsonValue.intValue 42)).toJsonValue
        = JsonValue.intValue 42 ∧
      (Integer.fromJson (-5) 192 (JsonValue.intValue 42)).isValid = true) ∧
    ((Float.fromJson 1 7 (JsonValue.realValue 4)).toJsonValue
        = JsonValue.realValue 4 ∧
      (Float.fromJson 1 7 (JsonValue.realValue 4)).isValid = true) ∧
    ((String.fromJson 42 (JsonValue.stringValue "Hello")).toJsonValue
        = JsonValue.stringValue "Hello" ∧
      (String.fromJson 42 (JsonValue.stringValue "Hello")).isValid = true) ∧
    ((Enum.fromJson (JsonValue.stringValue "kValue1")).toJsonValue
        = JsonValue.stringValue "kValue1" ∧
      (Enum.fromJson (JsonValue.stringValue "kValue1")).isValid = true) :=
  ⟨validated_types_roundtrip.1 (JsonValue.booleanValue true) (by decide),
    validated_types_roundtrip.2.1 (-5) 192 (JsonValue.intValue 42)
      (by decide) (by decide) (by decide),
    validated_types_roundtrip.2.2.1 1 7 (JsonValue.realValue 4)
      (by decide) (by decide) (by decide),
    validated_types_roundtrip.2.2.2.1 42 (JsonValue.stringValue "Hello")
      (by decide) (by decide),
    validated_types_roundtrip.2.2.2.2 (JsonValue.stringValue "kValue1")
      (by decide) (by decide)⟩

/-- C10: constructing any validated type from a JSON value of the wrong
kind, outside jsoncpp's 32-bit integral range, outside the declared
bounds, or beyond the maximum string length produces an object that is
initialized and invalid; construction is a total function, so malformed
input is reported only through the validity flag and never raises an
error. -/
theorem validated_types_invalid_flag :
    (∀ v : JsonValue, v.isBool = false →
      (Boolean.fromJson v).isInitialized = true ∧
        (Boolean.fromJson v).isValid = false) ∧
    (∀ (lo hi : Int) (v : JsonValue),
      (v.isInt = false ∨ v.asInt < lo ∨ hi < v.asInt) →
      (Integer.fromJson lo hi v).isInitialized = true ∧
        (Integer.fromJson lo hi v).isValid = false) ∧
    (∀ (lo hi : Rat) (v : JsonValue),
      (v.isDouble = false ∨ v.asDouble < lo ∨ hi < v.asDouble) →
      (Float.fromJson lo hi v).isInitialized = true ∧
        (Float.fromJson lo hi v).isValid = false) ∧
    (∀ (maxlen : Nat) (v : JsonValue),
      (v.isString = false ∨ maxlen < v.asString.length) →
      (String.fromJson maxlen v).isInitialized = true ∧
        (String.fromJson maxlen v).isValid = false) ∧
    (∀ v : JsonValue,
      (v.isString = false ∨ EnumFromJsonString v.asString = none) →
      (Enum.fromJson v).isInitialized = true ∧
        (Enum.fromJson v).isValid = false) := by
  refine ⟨?_, ?_, ?_, ?_, ?_⟩
  · intro v hv
    cases v <;> simp_all [JsonValue.isBool, Boolean.fromJson]
  · intro lo hi v hv
    cases v with
    | intValue n =>
      rcases hv with hv | hv | hv
      · simp_all [JsonValue.isInt, Integer.fromJson]
      · simp only [JsonValue.asInt] at hv
        simp [Integer.fromJson, not_le.mpr hv]
      · simp only [JsonValue.asInt] at hv
        simp [Integer.fromJson, not_le.mpr hv]
    | booleanValue b => simp [Integer.fromJson]
    | realValue q => simp [Integer.fromJson]
    | stringValue s => simp [Integer.fromJson]
    | nullValue => simp [Integer.fromJson]
  · intro lo hi v hv
    cases v with
    | realValue q =>
      rcases hv with hv | hv | hv
      · simp [JsonValue.isDouble] at hv
      · simp only [JsonValue.asDouble] at hv
        simp [Float.fromJson, not_le.mpr hv]
      · simp only [JsonValue.asDouble] at hv
        simp [Float.fromJson, not_le.mpr hv]
    | booleanValue b => simp [Float.fromJson]
    | intValue n => simp [Float.fromJson]
    | stringValue s => simp [Float.fromJson]
    | nullValue => simp [Float.fromJson]
  · intro maxlen v hv
    cases v with
    | stringValue s =>
      rcases hv with hv | hv
      · simp [JsonValue.isString] at hv
      · simp only [JsonValue.asString] at hv
        simp [String.fromJson, not_le.mpr hv]
    | booleanValue b => simp [String.fromJson]
    | intValue n => simp [String.fromJson]
    | realValue q => simp [String.fromJson]
    | nullValue => simp [String.fromJson]
  · intro v hv
    cases v with
    | stringValue s =>
      rcases hv with hv | hv
      · simp [JsonValue.isString] at hv
      · simp only [JsonValue.asString] at hv
        simp [Enum.fromJson, hv]
    | booleanValue b => simp [Enum.fromJson]
    | intValue n => simp [Enum.fromJson]
    | realValue q => simp [Enum.fromJson]
    | nullValue => simp [Enum.fromJson]

/-- Witness for the invalid-flag theorem at the malformed inputs of the
test suite: Boolean from the integer 7, Integer in [-5, 192] from the
64-bit value 0xFFFFFFFFFF, Integer in [0, 100] from 500, Float from the
string "Hello", String of maximum length 5 from "Too long string", Enum
from "Random string". -/
theorem validated_types_invalid_flag_witness :
    ((Boolean.fromJson (JsonValue.intValue 7)).isInitialized = true ∧
      (Boolean.fromJson (JsonValue.intValue 7)).isValid = false) ∧
    ((Integer.fromJson (-5) 192 (JsonValue.intValue 1099511627775)).isInitialized
        = true ∧
      (Integer.fromJson (-5) 192 (JsonValue.intValue 1099511627775)).isValid
        = false) ∧
    ((Integer.fromJson 0 100 (JsonValue.intValue 500)).isInitialized = true ∧
      (Integer.fromJson 0 100 (JsonValue.intValue 500)).isValid = false) ∧
    ((Float.fromJson (-5) 3 (JsonValue.stringValue "Hello")).isInitialized = true ∧
      (Float.fromJson (-5) 3 (JsonValue.stringValue "Hello")).isValid = false) ∧
    ((String.fromJson 5 (JsonValue.stringValue "Too long string")).isInitialized
        = true ∧
      (String.fromJson 5 (JsonValue.stringValue "Too long string")).isValid
        = false) ∧
    ((Enum.fromJson (JsonValue.stringValue "Random string")).isInitialized = true ∧
      (Enum.fromJson (JsonValue.stringValue "Random string")).isValid = false) :=
  ⟨validated_types_invalid_flag.1 (JsonValue.intValue 7) (by decide),
    validated_types_invalid_flag.2.1 (-5) 192 (JsonValue.intValue 1099511627775)
      (Or.inl (by decide)),
    validated_types_invalid_flag.2.1 0 100 (JsonValue.intValue 500)
      (Or.inr (Or.inr (by decide))),
    validated_types_invalid_flag.2.2.1 (-5) 3 (JsonValue.stringValue "Hello")
      (Or.inl (by decide)),
    validated_types_invalid_flag.2.2.2.1 5 (JsonValue.stringValue "Too long string")
      (Or.inr (by decide)),
    validated_types_invalid_flag.2.2.2.2 (JsonValue.stringValue "Random string")
      (Or.inr (by decide))⟩

end rpc
